import Mathlib

/-!
Verification of the order/payment core of the marketplace backend.

Each definition in this file is a shallow embedding of a function of the
source tree (file and symbol named in its doc comment).  Statuses, provider
names and identifiers are kept as strings, exactly as the Python code keeps
them; monetary amounts (Python floats) are modelled as rationals with exact
arithmetic; wall-clock instants (Python datetimes) are modelled as natural
numbers; MongoDB collections are modelled as lists in insertion order, with
find_one returning the first match and update_one rewriting the first match.
-/

/-! ### Order state machine (app/services/order_service.py) -/

/-- Embeds `OrderService.STATUS_TRANSITIONS`: the adjacency table of valid
order status transitions.  Returns `none` for a status that is not a key of
the Python dict. -/
def STATUS_TRANSITIONS (s : String) : Option (List String) :=
  if s = "pending" then some ["confirmed", "cancelled"]
  else if s = "confirmed" then some ["shipped", "cancelled"]
  else if s = "shipped" then some ["delivered"]
  else if s = "delivered" then some []
  else if s = "cancelled" then some []
  else none

/-- The three shapes of error message built by
`OrderService.validate_status_transition`.  `invalidCurrent` stands for the
f-string "Invalid current status: ...", `finalState` for "Order is in final
state ... and cannot be modified", and `cannotTransition` for "Cannot
transition from ... to .... Valid transitions: ..." (carrying the pieces the
f-strings interpolate). -/
inductive TransitionError where
  | invalidCurrent (current : String)
  | finalState (current : String)
  | cannotTransition (current target : String) (valid : List String)
deriving DecidableEq, Repr

/-- Embeds `OrderService.validate_status_transition(current_status,
new_status)`, returning the pair (is_valid, error_message). -/
def validate_status_transition (current_status new_status : String) :
    Bool × Option TransitionError :=
  match STATUS_TRANSITIONS current_status with
  | none => (false, some (.invalidCurrent current_status))
  | some valid_next_statuses =>
    if new_status ∈ valid_next_statuses then (true, none)
    else if valid_next_statuses = [] then
      (false, some (.finalState current_status))
    else
      (false, some (.cannotTransition current_status new_status valid_next_statuses))

/-- The five order statuses, as an enumerable type for quantification. -/
inductive OrderStatus where
  | pending | confirmed | shipped | delivered | cancelled
deriving DecidableEq, Repr

instance : Fintype OrderStatus :=
  ⟨⟨{.pending, .confirmed, .shipped, .delivered, .cancelled}, by decide⟩,
   by intro x; cases x <;> decide⟩

/-- String form of each order status, matching the Python string values. -/
def OrderStatus.str : OrderStatus → String
  | .pending => "pending"
  | .confirmed => "confirmed"
  | .shipped => "shipped"
  | .delivered => "delivered"
  | .cancelled => "cancelled"

/-- The pairs the spec's adjacency table allows. -/
def specAdjacency : List (OrderStatus × OrderStatus) :=
  [(.pending, .confirmed), (.pending, .cancelled),
   (.confirmed, .shipped), (.confirmed, .cancelled),
   (.shipped, .delivered)]

/-! ### Fee calculator (app/config/payment_config.py) -/

/-- Embeds `PAYMENT_CONFIG["fees"]["platform_commission_percent"]`
(default 2.5). -/
def platform_commission_percent : ℚ := 5 / 2

/-- Embeds the `{provider}_gateway_fee_percent` lookup with default 2.0:
orange 1.5, mtn 1.8, moov 2.0 (the defaults of the config dict). -/
def gateway_fee_percent_for (provider : String) : ℚ :=
  if provider = "orange_money" then 3 / 2
  else if provider = "mtn_money" then 9 / 5
  else if provider = "moov_money" then 2
  else 2

/-- The dictionary returned by `calculate_fees`. -/
structure FeeBreakdown where
  gross_amount : ℚ
  platform_fee : ℚ
  payment_gateway_fee : ℚ
  merchant_payout : ℚ
deriving DecidableEq, Repr

/-- Rounding to 2 decimal places, embedding Python's `round(x, 2)` (exact
nearest-multiple-of-1/100 rounding; the tie-breaking rule is immaterial to
every statement below). -/
def round2 (q : ℚ) : ℚ := ((round (q * 100) : ℤ) : ℚ) / 100

/-- Embeds `calculate_fees(amount, provider)`. -/
def calculate_fees (amount : ℚ) (provider : String) : FeeBreakdown :=
  let platform_fee := amount * (platform_commission_percent / 100)
  let gateway_fee := amount * (gateway_fee_percent_for provider / 100)
  let merchant_payout := amount - platform_fee - gateway_fee
  { gross_amount := amount
    platform_fee := round2 platform_fee
    payment_gateway_fee := round2 gateway_fee
    merchant_payout := round2 merchant_payout }

/-- C2: for every pair (current, target) of order statuses,
`validate_status_transition` returns Ok exactly when the pair is in the
adjacency table pending to confirmed/cancelled, confirmed to
shipped/cancelled, shipped to delivered; every other pair is Rejected, and
every transition out of the terminal states delivered and cancelled is
Rejected with the distinct already-terminal message. -/
theorem C2_validate_status_transition :
    ∀ (c t : OrderStatus),
      ((validate_status_transition c.str t.str).1 = true ↔ (c, t) ∈ specAdjacency) ∧
      ((c = .delivered ∨ c = .cancelled) →
        (validate_status_transition c.str t.str).1 = false ∧
        (validate_status_transition c.str t.str).2 =
          some (.finalState c.str)) := by
  decide

/-- The characters removed by the `re.sub` in `validate_ivorian_phone`
(the regex class of whitespace, hyphen and parentheses). -/
def strippedChars : List Char :=
  [' ', '\t', '\n', '\r', '\x0b', '\x0c', '-', '(', ')']

/-- Removing separators from the raw phone string, embedding
`re.sub(..., phone_number)`. -/
def cleanPhone (s : String) : List Char :=
  s.data.filter (fun c => ¬ (c ∈ strippedChars))

/-- Embeds `validate_ivorian_phone(phone_number)`, returning the tuple
(is_valid, cleaned_number, error_message). -/
def validate_ivorian_phone (phone_number : String) :
    Bool × Option String × Option String :=
  let cleaned0 := cleanPhone phone_number
  let step : Option (List Char) :=
    if cleaned0.take 4 = ['+', '2', '2', '5'] then some (cleaned0.drop 1)
    else if cleaned0.take 3 = ['2', '2', '5'] then some cleaned0
    else none
  match step with
  | none => (false, none, some "Phone number must start with +225 or 225")
  | some cleaned =>
    if cleaned.length ≠ 13 then
      let n := cleaned.length
      (false, none, some s!"Invalid phone number length. Expected 13 digits (225 + 10), got {n}")
    else if ¬ (cleaned.all Char.isDigit) then
      (false, none, some "Phone number must contain only digits")
    else
      -- first_two = cleaned[3:5]; reject unless it starts with the digit 0
      -- and its second character is a digit
      let first_two := (cleaned.drop 3).take 2
      if ¬ (first_two.take 1 = ['0'] ∧ (first_two.drop 1).all Char.isDigit) then
        (false, none, some "Invalid Ivorian mobile number prefix")
      else
        (true, some (String.mk ('+' :: cleaned)), none)

/-- The Orange Money table of `detect_provider`. -/
def orange_prefixes : List String :=
  ["0707", "0505", "0104", "0105", "0106", "0107", "0108", "0109",
   "0140", "0141", "0142", "0143", "0144", "0145", "0146", "0147", "0148", "0149",
   "0150", "0151", "0152", "0153", "0154", "0155", "0156", "0157", "0158", "0159"]

/-- The MTN Mobile Money table of `detect_provider`. -/
def mtn_prefixes : List String :=
  ["0504", "0544", "0545", "0546", "0554", "0555", "0556", "0557",
   "0640", "0641", "0642", "0643", "0644", "0645", "0646", "0647", "0648", "0649",
   "0650", "0651", "0652", "0653", "0654", "0655", "0656", "0657", "0658", "0659"]

/-- The Moov Money table of `detect_provider`. -/
def moov_prefixes : List String :=
  ["0100", "0101", "0102", "0103",
   "0201", "0202", "0203", "0204", "0205",
   "0301", "0302", "0303", "0304", "0305"]

/-- The Moov block at the end of `detect_provider`: both the MTN block
(when it does not return) and the skipped-MTN path fall through to this
code, and it falls through to `return None`. -/
def detect_provider_moov (prefix_4 prefix_2 : String) : Option String :=
  if prefix_4 ∈ moov_prefixes ∨ prefix_2 ∈ (["01", "02", "03"] : List String) then
    if prefix_2 = "01" ∧ prefix_4 ∉ orange_prefixes then some "moov_money"
    else if prefix_2 ∈ (["02", "03"] : List String) then some "moov_money"
    else none
  else none

/-- Embeds `detect_provider(phone_number)`.  The Python guard
`if not is_valid or not cleaned: return None` treats both a `None` and an
empty cleaned string as falsy. -/
def detect_provider (phone_number : String) : Option String :=
  let v := validate_ivorian_phone phone_number
  if v.1 = false ∨ (v.2.1).getD "" = "" then none
  else
    let cleaned := (v.2.1).getD ""
    let number := cleaned.data.drop 4
    let prefix_4 := String.mk (number.take 4)
    let prefix_2 := String.mk (number.take 2)
    if prefix_4 ∈ orange_prefixes ∨ prefix_2 = "07" then some "orange_money"
    else if prefix_4 ∈ mtn_prefixes ∨ prefix_2 ∈ (["04", "05", "06"] : List String) then
      if prefix_2 = "05" ∧ prefix_4 ∉ orange_prefixes then some "mtn_money"
      else if prefix_2 ∈ (["04", "06"] : List String) then some "mtn_money"
      else detect_provider_moov prefix_4 prefix_2
    else detect_provider_moov prefix_4 prefix_2

/-- Matching the Orange prefix table: the guard of the first branch of
`detect_provider` (four-digit prefix in `orange_prefixes`, or two-digit
prefix 07). -/
def orange_table_match (cleaned : String) : Prop :=
  String.mk ((cleaned.data.drop 4).take 4) ∈ orange_prefixes ∨
  String.mk ((cleaned.data.drop 4).take 2) = "07"

/-- Matching the MTN prefix table: the guard of the second branch of
`detect_provider` (four-digit prefix in `mtn_prefixes`, or two-digit
prefix 04, 05 or 06). -/
def mtn_table_match (cleaned : String) : Prop :=
  String.mk ((cleaned.data.drop 4).take 4) ∈ mtn_prefixes ∨
  String.mk ((cleaned.data.drop 4).take 2) ∈ (["04", "05", "06"] : List String)

/-- Matching the Moov prefix table: the guard of the Moov block of
`detect_provider` (four-digit prefix in `moov_prefixes`, or two-digit
prefix 01, 02 or 03). -/
def moov_table_match (cleaned : String) : Prop :=
  String.mk ((cleaned.data.drop 4).take 4) ∈ moov_prefixes ∨
  String.mk ((cleaned.data.drop 4).take 2) ∈ (["01", "02", "03"] : List String)

instance (c : String) : Decidable (orange_table_match c) := by
  unfold orange_table_match; infer_instance

instance (c : String) : Decidable (mtn_table_match c) := by
  unfold mtn_table_match; infer_instance

instance (c : String) : Decidable (moov_table_match c) := by
  unfold moov_table_match; infer_instance

/-- A successful validation never returns an empty cleaned number: the
cleaned string carries the restored leading plus sign. -/
theorem validate_cleaned_ne_empty (s cleaned : String) (err : Option String)
    (h : validate_ivorian_phone s = (true, some cleaned, err)) : cleaned ≠ "" := by
  unfold validate_ivorian_phone at h
  dsimp only at h
  split at h
  · simp at h
  · split at h
    · simp at h
    · split at h
      · simp at h
      · split at h
        · simp at h
        · simp only [Prod.mk.injEq, Option.some.injEq] at h
          obtain ⟨-, h1, -⟩ := h
          rw [← h1]
          simp [String.ext_iff]

/-- C4: the three example numbers resolve to orange, mtn and moov money
respectively; the wrong-country-code number fails validation; every number
that fails validation detects no provider; and every validated number that
matches none of the three provider prefix tables detects no provider
rather than a guessed one. -/
theorem C4_detect_provider :
    detect_provider "+2250707123456" = some "orange_money" ∧
    detect_provider "+2250504123456" = some "mtn_money" ∧
    detect_provider "+2250101123456" = some "moov_money" ∧
    (validate_ivorian_phone "+2330707123456").1 = false ∧
    detect_provider "+2330707123456" = none ∧
    (∀ s, (validate_ivorian_phone s).1 = false → detect_provider s = none) ∧
    (∀ s cleaned err,
      validate_ivorian_phone s = (true, some cleaned, err) →
      ¬ orange_table_match cleaned → ¬ mtn_table_match cleaned →
      ¬ moov_table_match cleaned → detect_provider s = none) := by
  refine ⟨by decide, by decide, by decide, by decide, by decide, ?_, ?_⟩
  · intro s h
    simp [detect_provider, h]
  · intro s cleaned err hv ho hm hmo
    have hne := validate_cleaned_ne_empty s cleaned err hv
    unfold orange_table_match at ho
    unfold mtn_table_match at hm
    unfold moov_table_match at hmo
    simp only [detect_provider, hv, Option.getD_some]
    rw [if_neg (by simp [hne])]
    rw [if_neg ho, if_neg hm]
    simp only [detect_provider_moov]
    rw [if_neg hmo]

/-- Witness for C4: the two universal parts applied to a number that fails
validation and to a validated 09-range number matching none of the three
prefix tables. -/
theorem C4_detect_provider_witness :
    detect_provider "0707123456" = none ∧
    detect_provider "+2250901123456" = none :=
  ⟨C4_detect_provider.2.2.2.2.2.1 "0707123456" (by decide),
   C4_detect_provider.2.2.2.2.2.2 "+2250901123456" "+2250901123456" none
     (by decide) (by decide) (by decide) (by decide)⟩

/-! ### Data model (app/models) and the MongoDB collections

Collections are lists in insertion order: `find_one` is `List.find?` (the
first matching document) and `update_one` rewrites the first matching
document, as MongoDB does without an explicit sort. -/

/-- One entry of an order's `status_history` array. -/
structure HistoryEntry where
  status : String
  changed_at : Nat
  changed_by : String
  note : Option String
deriving DecidableEq, Repr

/-- One line item of an order's `products` array (the fields
`restore_product_stock` reads). -/
structure OrderLine where
  product_id : String
  quantity : Int
deriving DecidableEq, Repr

/-- A document of the `orders` collection (the fields the payment and order
services read or write). -/
structure OrderDoc where
  id : String
  user_id : String
  merchant_id : String
  status : String
  payment_status : Option String
  status_history : List HistoryEntry
  products : List OrderLine
  updated_at : Nat
deriving DecidableEq, Repr

/-- A document of the `payments` collection (the fields the payment service
reads or writes; `app/models/payment.py` class `Payment`). -/
structure PaymentDoc where
  payment_id : String
  order_id : String
  user_id : String
  merchant_id : String
  amount : ℚ
  currency : String
  provider : String
  phone_number : String
  status : String
  transaction_id : Option String
  failure_reason : Option String
  gross_amount : ℚ
  platform_fee : ℚ
  payment_gateway_fee : ℚ
  merchant_payout : ℚ
  initiated_at : Nat
  expires_at : Nat
  completed_at : Option Nat
  webhook_received_at : Option Nat
  updated_at : Nat
deriving DecidableEq, Repr

/-- A document of the `refunds` collection (`app/models/refund.py` class
`Refund`). -/
structure RefundDoc where
  refund_id : String
  payment_id : String
  order_id : String
  user_id : String
  merchant_id : String
  initiated_by : String
  amount : ℚ
  currency : String
  reason : String
  note : Option String
  status : String
  failure_reason : Option String
  provider : String
  provider_refund_id : Option String
  transaction_id : Option String
  completed_at : Option Nat
  updated_at : Nat
deriving DecidableEq, Repr

/-- A document of the `products` collection (the fields stock restoration
touches). -/
structure ProductDoc where
  product_id : String
  stock : Int
deriving DecidableEq, Repr

/-- The database state the payment and order services operate on. -/
structure DB where
  payments : List PaymentDoc
  orders : List OrderDoc
  refunds : List RefundDoc
  products : List ProductDoc
deriving DecidableEq, Repr

/-- `update_one`: rewrite the first document matching the filter, leave the
rest alone (no-op when nothing matches). -/
def updateFirst (p : α → Bool) (f : α → α) : List α → List α
  | [] => []
  | a :: as => if p a then f a :: as else a :: updateFirst p f as

theorem find?_updateFirst_of_pred (p : α → Bool) (f : α → α)
    (hp : ∀ a, p a = true → p (f a) = true) (l : List α) :
    (updateFirst p f l).find? p = (l.find? p).map f := by
  induction l with
  | nil => rfl
  | cons a as ih =>
    by_cases h : p a
    · simp [updateFirst, h, List.find?_cons_of_pos, hp a h]
    · simp [updateFirst, h, List.find?_cons_of_neg, ih]

theorem map_updateFirst (g : α → β) (p : α → Bool) (f : α → α)
    (hg : ∀ a, g (f a) = g a) (l : List α) :
    (updateFirst p f l).map g = l.map g := by
  induction l with
  | nil => rfl
  | cons a as ih =>
    by_cases h : p a
    · simp [updateFirst, h, hg]
    · simp [updateFirst, h, ih]

/-! ### Webhook processing (app/services/payment_service.py,
`PaymentService.process_webhook`)

The signature check `_verify_webhook_signature` dispatches on the operating
mode and provider and, for a real provider, recomputes an HMAC; its verdict
is passed in here as the boolean `sigOk` (in SIMULATION mode it is always
true).  The wall clock `datetime.utcnow()` is passed in as `now`. -/

/-- Python truthiness of an optional string: absent and empty are falsy. -/
def truthyStr : Option String → Bool
  | none => false
  | some s => s ≠ ""

/-- Python `a or b` on optional strings. -/
def orStr (a b : Option String) : Option String :=
  if truthyStr a then a else b

/-- Python `str.lower()` restricted to the ASCII range the status strings
use (character-wise lowering). -/
def strToLower (s : String) : String := String.mk (s.data.map Char.toLower)

/-- The fields of a webhook payload that `process_webhook` reads. -/
structure WebhookPayload where
  transaction_id : Option String
  reference_id : Option String
  pay_token : Option String
  status : Option String
  message : Option String
deriving DecidableEq, Repr

/-- The transaction id extracted by `payload.get("transaction_id") or
payload.get("reference_id") or payload.get("pay_token")`. -/
def payload_tid (p : WebhookPayload) : Option String :=
  orStr p.transaction_id (orStr p.reference_id p.pay_token)

/-- The `status_map` dict of `process_webhook`, with `.get(status,
PaymentStatus.PROCESSING)` for an unknown key. -/
def webhook_status_map (s : String) : String :=
  if s = "success" then "completed"
  else if s = "successful" then "completed"
  else if s = "completed" then "completed"
  else if s = "failed" then "failed"
  else if s = "cancelled" then "cancelled"
  else if s = "pending" then "processing"
  else "processing"

/-- The dict returned by `process_webhook` (the keys every branch sets). -/
structure WebhookResult where
  success : Bool
  message : String
  payment_id : Option String
  status : Option String
deriving DecidableEq, Repr

/-- Embeds `PaymentService.process_webhook(provider, payload, signature,
db)`: verify the signature, locate the payment by transaction id, map the
provider status, update the order on completion or failure, then update the
payment.  The metadata write `metadata.webhook_payload` is not modelled (no
statement below reads metadata). -/
def process_webhook (sigOk : Bool) (payload : WebhookPayload) (now : Nat)
    (db : DB) : DB × WebhookResult :=
  match sigOk with
  | false => (db, ⟨false, "Invalid signature", none, none⟩)
  | true =>
    match db.payments.find? (fun pm => pm.transaction_id == payload_tid payload) with
    | none => (db, ⟨false, "Payment not found", none, none⟩)
    | some payment =>
      let payment_id := payment.payment_id
      let order_id := payment.order_id
      let new_status := webhook_status_map (strToLower (payload.status.getD ""))
      let confirmOrder : OrderDoc → OrderDoc := fun o =>
        { o with status := "confirmed", payment_status := some "completed",
                 updated_at := now }
      let failOrder : OrderDoc → OrderDoc := fun o =>
        { o with payment_status := some "failed", updated_at := now }
      let applyPayment : PaymentDoc → PaymentDoc := fun pm =>
        { pm with
            status := new_status
            webhook_received_at := some now
            updated_at := now
            completed_at := if new_status = "completed" then some now
                            else pm.completed_at
            failure_reason := if new_status = "failed" then
                                some (payload.message.getD "Payment failed")
                              else pm.failure_reason }
      let db1 :=
        if new_status = "completed" then
          { db with orders := updateFirst (fun o => o.id == order_id) confirmOrder db.orders }
        else if new_status = "failed" then
          { db with orders := updateFirst (fun o => o.id == order_id) failOrder db.orders }
        else db
      let db2 :=
        { db1 with payments :=
            updateFirst (fun pm => pm.payment_id == payment_id) applyPayment db1.payments }
      (db2, ⟨true, "Webhook processed successfully", some payment_id, some new_status⟩)

/-- A payment already in the terminal status completed (its webhook was
already applied once), for the replay scenario of C1. -/
def c1Payment : PaymentDoc :=
  { payment_id := "pay1", order_id := "ord1", user_id := "u1",
    merchant_id := "m1", amount := 46000, currency := "XOF",
    provider := "orange_money", phone_number := "+2250707123456",
    status := "completed", transaction_id := some "tx1",
    failure_reason := none, gross_amount := 46000, platform_fee := 1150,
    payment_gateway_fee := 690, merchant_payout := 44160, initiated_at := 0,
    expires_at := 600, completed_at := some 100,
    webhook_received_at := some 100, updated_at := 150 }

/-- The associated order, cancelled after the first webhook delivery. -/
def c1Order : OrderDoc :=
  { id := "ord1", user_id := "u1", merchant_id := "m1",
    status := "cancelled", payment_status := some "completed",
    status_history := [⟨"pending", 0, "u1", none⟩, ⟨"cancelled", 150, "u1", none⟩],
    products := [], updated_at := 150 }

/-- The replayed completed webhook for transaction tx1. -/
def c1Payload : WebhookPayload :=
  { transaction_id := some "tx1", reference_id := none, pay_token := none,
    status := some "completed", message := none }

/-- The database state after the replayed webhook of C1. -/
def c1Result : DB × WebhookResult :=
  process_webhook true c1Payload 200
    { payments := [c1Payment], orders := [c1Order], refunds := [], products := [] }

/-- C1 evaluated at the failing input: the code has no terminal-status
guard, so replaying a completed webhook against an already-completed
payment whose order was meanwhile cancelled reports success, rewrites the
payment (webhook_received_at and completed_at move to the replay time) and
re-confirms the cancelled order, instead of being a no-op. -/
theorem C1_webhook_replay_reapplies :
    ((c1Result.1.orders.find? (fun o => o.id == "ord1")).map OrderDoc.status
        = some "confirmed") ∧
    c1Order.status = "cancelled" ∧
    ((c1Result.1.payments.find? (fun pm => pm.payment_id == "pay1")).map
        PaymentDoc.webhook_received_at = some (some 200)) ∧
    c1Payment.webhook_received_at = some 100 ∧
    c1Result.2.success = true := by
  decide

/-- A pending payment awaiting its first webhook, for C9. -/
def c9Payment : PaymentDoc :=
  { c1Payment with
      payment_id := "pay9"
      order_id := "ord9"
      status := "pending"
      transaction_id := some "tx9"
      completed_at := none
      webhook_received_at := none }

/-- The associated pending order with its creation history entry. -/
def c9Order : OrderDoc :=
  { id := "ord9", user_id := "u1", merchant_id := "m1", status := "pending",
    payment_status := none,
    status_history := [⟨"pending", 0, "system", none⟩],
    products := [], updated_at := 0 }

/-- The first completed webhook for transaction tx9. -/
def c9Payload : WebhookPayload :=
  { transaction_id := some "tx9", reference_id := none, pay_token := none,
    status := some "completed", message := none }

/-- The database state after the completed webhook of C9. -/
def c9Result : DB × WebhookResult :=
  process_webhook true c9Payload 50
    { payments := [c9Payment], orders := [c9Order], refunds := [], products := [] }

/-- C9 evaluated at the failing input: the webhook completion path mutates
the order status from pending to confirmed but appends nothing to
status_history (the history still holds only the creation entry), so not
every status mutation appends exactly one entry. -/
theorem C9_webhook_confirm_skips_history :
    ((c9Result.1.orders.find? (fun o => o.id == "ord9")).map OrderDoc.status
        = some "confirmed") ∧
    c9Order.status = "pending" ∧
    ((c9Result.1.orders.find? (fun o => o.id == "ord9")).map
        OrderDoc.status_history = some [⟨"pending", 0, "system", none⟩]) ∧
    c9Order.status_history = [⟨"pending", 0, "system", none⟩] ∧
    c9Result.2.success = true := by
  decide

/-- C7: for every webhook that maps to the failed status (valid signature,
payment located by transaction id), processing leaves the status field of
every order unchanged, sets the associated order's payment_status to
failed, and marks the payment failed with a failure_reason; the webhook is
reported as processed. -/
theorem C7_webhook_failed_frame (payload : WebhookPayload) (now : Nat)
    (db : DB) (payment : PaymentDoc)
    (hfind : db.payments.find?
      (fun pm => pm.transaction_id == payload_tid payload) = some payment)
    (hstatus : webhook_status_map (strToLower (payload.status.getD "")) = "failed") :
    ((process_webhook true payload now db).1.orders.map OrderDoc.status
        = db.orders.map OrderDoc.status) ∧
    (∀ o, db.orders.find? (fun x => x.id == payment.order_id) = some o →
        (process_webhook true payload now db).1.orders.find?
            (fun x => x.id == payment.order_id)
          = some { o with payment_status := some "failed", updated_at := now }) ∧
    ((process_webhook true payload now db).1.payments.find?
        (fun pm => pm.payment_id == payment.payment_id)
      = (db.payments.find? (fun pm => pm.payment_id == payment.payment_id)).map
          (fun pm => { pm with
            status := "failed"
            webhook_received_at := some now
            updated_at := now
            failure_reason := some (payload.message.getD "Payment failed") })) ∧
    (process_webhook true payload now db).2.success = true := by
  have hnc : ¬ (("failed" : String) = "completed") := by decide
  have hf : (("failed" : String) = "failed") := rfl
  simp only [process_webhook, hfind, hstatus, if_neg hnc, if_pos hf,
    ite_true, ite_false]
  refine ⟨?_, ?_, ?_, trivial⟩
  · apply map_updateFirst
    intro a; rfl
  · intro o ho
    have key := find?_updateFirst_of_pred
      (fun (x : OrderDoc) => x.id == payment.order_id)
      (fun x => { x with payment_status := some "failed", updated_at := now })
      (fun a ha => ha) db.orders
    rw [key, ho]
    rfl
  · have key := find?_updateFirst_of_pred
      (fun (x : PaymentDoc) => x.payment_id == payment.payment_id)
      (fun x => { x with
          status := "failed"
          webhook_received_at := some now
          updated_at := now
          failure_reason := some (payload.message.getD "Payment failed") })
      (fun a ha => ha) db.payments
    rw [key]

/-- A processing payment awaiting its webhook, for the C7 witness. -/
def c7Payment : PaymentDoc :=
  { c1Payment with
      payment_id := "pay7"
      order_id := "ord7"
      status := "processing"
      transaction_id := some "tx7"
      completed_at := none
      webhook_received_at := none }

/-- The associated order, already confirmed, for the C7 witness. -/
def c7Order : OrderDoc :=
  { id := "ord7", user_id := "u1", merchant_id := "m1",
    status := "confirmed", payment_status := some "completed",
    status_history := [⟨"pending", 0, "system", none⟩],
    products := [], updated_at := 10 }

/-- The failed webhook for transaction tx7 (uppercase status exercises the
lowercasing). -/
def c7Payload : WebhookPayload :=
  { transaction_id := some "tx7", reference_id := none, pay_token := none,
    status := some "FAILED", message := some "insufficient funds" }

/-- The database for the C7 witness. -/
def c7DB : DB :=
  { payments := [c7Payment], orders := [c7Order], refunds := [], products := [] }

/-- Witness for C7: the theorem applied to the concrete failed webhook. -/
theorem C7_webhook_failed_frame_witness :
    ((process_webhook true c7Payload 300 c7DB).1.orders.map OrderDoc.status
        = c7DB.orders.map OrderDoc.status) ∧
    (process_webhook true c7Payload 300 c7DB).1.orders.find?
        (fun x => x.id == c7Payment.order_id)
      = some { c7Order with payment_status := some "failed", updated_at := 300 } ∧
    (process_webhook true c7Payload 300 c7DB).2.success = true := by
  have h := C7_webhook_failed_frame c7Payload 300 c7DB c7Payment (by decide) (by decide)
  exact ⟨h.1, h.2.1 c7Order (by decide), h.2.2.2⟩

/-! ### Payment initiation (app/services/payment_service.py,
`PaymentService.initiate_payment`)

The provider call `_call_provider` is I/O against the gateway; its response
dict is passed in as `provider_response`.  The generated
`Payment.payment_id` (`pay_` plus a random token) is passed in as
`new_payment_id`, and `expires_at` is `now` plus the configured 10-minute
timeout. -/

/-- The dict a provider initiation returns (the keys `initiate_payment`
reads). -/
structure ProviderResponse where
  success : Bool
  transaction_id : Option String
  status : Option String
  message : Option String
deriving DecidableEq, Repr

/-- The dict `initiate_payment` returns (the keys the claims read). -/
structure InitiateResult where
  success : Bool
  message : String
  payment_id : Option String
  status : Option String
deriving DecidableEq, Repr

/-- `PAYMENT_CONFIG["timeout_minutes"]` (10 minutes), in seconds. -/
def payment_timeout_secs : Nat := 600

/-- The tail of `initiate_payment` after the duplicate-payment guard:
compute fees, insert the pending payment, call the provider and apply its
response. -/
def initiate_payment_create (order_id cleaned_phone user_id merchant_id provider : String)
    (amount : ℚ) (new_payment_id : String) (provider_response : ProviderResponse)
    (now : Nat) (db : DB) : DB × InitiateResult :=
  let fee_breakdown := calculate_fees amount provider
  let payment : PaymentDoc :=
    { payment_id := new_payment_id
      order_id := order_id
      user_id := user_id
      merchant_id := merchant_id
      amount := amount
      currency := "XOF"
      provider := provider
      phone_number := cleaned_phone
      status := "pending"
      transaction_id := none
      failure_reason := none
      gross_amount := fee_breakdown.gross_amount
      platform_fee := fee_breakdown.platform_fee
      payment_gateway_fee := fee_breakdown.payment_gateway_fee
      merchant_payout := fee_breakdown.merchant_payout
      initiated_at := now
      expires_at := now + payment_timeout_secs
      completed_at := none
      webhook_received_at := none
      updated_at := now }
  let db1 := { db with payments := db.payments ++ [payment] }
  match provider_response.success with
  | false =>
    let markFailed : PaymentDoc → PaymentDoc := fun pm =>
      { pm with status := "failed"
                failure_reason := some (provider_response.message.getD "Provider error")
                updated_at := now }
    let newPayments := updateFirst (fun pm => pm.payment_id == new_payment_id) markFailed db1.payments
    let db2 := { db1 with payments := newPayments }
    (db2, ⟨false, provider_response.message.getD "Payment initiation failed",
           some new_payment_id, none⟩)
  | true =>
    let applyInit : PaymentDoc → PaymentDoc := fun pm =>
      { pm with transaction_id := provider_response.transaction_id
                status := if provider_response.status == some "pending" then "pending"
                          else "processing"
                updated_at := now }
    let newPayments := updateFirst (fun pm => pm.payment_id == new_payment_id) applyInit db1.payments
    let db2 := { db1 with payments := newPayments }
    (db2, ⟨true, provider_response.message.getD "Veuillez composer le code USSD",
           some new_payment_id, some (provider_response.status.getD "pending")⟩)

/-- Embeds `PaymentService.initiate_payment(order_id, phone_number,
user_id, merchant_id, amount, db)`: validate the phone, detect the
provider, reject while the first stored pending/processing payment of the
order is unexpired, then create and initiate. -/
def initiate_payment (order_id phone_number user_id merchant_id : String)
    (amount : ℚ) (new_payment_id : String) (provider_response : ProviderResponse)
    (now : Nat) (db : DB) : DB × InitiateResult :=
  match validate_ivorian_phone phone_number with
  | (false, _, error) =>
    (db, ⟨false, "Invalid phone number: " ++ error.getD "", none, none⟩)
  | (true, cleanedOpt, _) =>
    let cleaned_phone := cleanedOpt.getD ""
    match detect_provider cleaned_phone with
    | none =>
      (db, ⟨false, "Could not determine payment provider from phone number", none, none⟩)
    | some provider =>
      match db.payments.find? (fun pm => pm.order_id == order_id &&
          (pm.status == "pending" || pm.status == "processing")) with
      | some existing =>
        if now < existing.expires_at then
          (db, ⟨false, "A pending payment already exists for this order",
                some existing.payment_id, none⟩)
        else
          initiate_payment_create order_id cleaned_phone user_id merchant_id
            provider amount new_payment_id provider_response now db
      | none =>
        initiate_payment_create order_id cleaned_phone user_id merchant_id
          provider amount new_payment_id provider_response now db

/-- An expired pending payment for order ordA, stored first. -/
def c5Expired : PaymentDoc :=
  { c1Payment with
      payment_id := "payOld"
      order_id := "ordA"
      status := "pending"
      transaction_id := some "txOld"
      completed_at := none
      webhook_received_at := none
      initiated_at := 0
      expires_at := 5 }

/-- An unexpired pending payment for the same order ordA, stored second. -/
def c5Active : PaymentDoc :=
  { c5Expired with
      payment_id := "payActive"
      transaction_id := some "txActive"
      initiated_at := 8
      expires_at := 1000 }

/-- A successful gateway response for the C5 scenario. -/
def c5Response : ProviderResponse :=
  { success := true, transaction_id := some "txNew", status := some "pending",
    message := some "ok" }

/-- The outcome of initiating a third payment for ordA at time 10. -/
def c5Result : DB × InitiateResult :=
  initiate_payment "ordA" "+2250707123456" "u1" "m1" 1000 "payNew" c5Response 10
    { payments := [c5Expired, c5Active], orders := [], refunds := [], products := [] }

/-- Counterexample for C5: at time 10 the payment payActive for ordA is
pending and unexpired (expires at 1000), yet a new initiation succeeds,
because the guard consults only the first stored pending/processing
payment (payOld, expired at 5).  The claimed rejection, and with it the
at-most-one-unexpired-pending invariant, fails. -/
theorem C5_second_unexpired_payment_not_rejected :
    c5Active.order_id = "ordA" ∧
    c5Active.status = "pending" ∧
    (10 : Nat) < c5Active.expires_at ∧
    c5Result.2.success = true ∧
    c5Result.2.payment_id = some "payNew" := by
  decide

/-- C5 amended: the duplicate guard consults only the first stored
pending/processing payment of the order.  When that first payment is
unexpired, initiation is rejected with success false, the message naming an
existing pending payment, that payment's id, and the database unchanged;
when the first such payment is expired, or none exists, and the gateway
accepts, initiation succeeds. -/
theorem C5_first_pending_guard (order_id phone_number user_id merchant_id : String)
    (amount : ℚ) (new_payment_id : String) (provider_response : ProviderResponse)
    (now : Nat) (db : DB) (cleaned provider : String) (err : Option String)
    (hv : validate_ivorian_phone phone_number = (true, some cleaned, err))
    (hp : detect_provider cleaned = some provider) :
    (∀ e, db.payments.find? (fun pm => pm.order_id == order_id &&
          (pm.status == "pending" || pm.status == "processing")) = some e →
      now < e.expires_at →
      initiate_payment order_id phone_number user_id merchant_id amount
          new_payment_id provider_response now db
        = (db, ⟨false, "A pending payment already exists for this order",
                some e.payment_id, none⟩)) ∧
    (∀ e, db.payments.find? (fun pm => pm.order_id == order_id &&
          (pm.status == "pending" || pm.status == "processing")) = some e →
      e.expires_at ≤ now → provider_response.success = true →
      (initiate_payment order_id phone_number user_id merchant_id amount
          new_payment_id provider_response now db).2.success = true) ∧
    (db.payments.find? (fun pm => pm.order_id == order_id &&
          (pm.status == "pending" || pm.status == "processing")) = none →
      provider_response.success = true →
      (initiate_payment order_id phone_number user_id merchant_id amount
          new_payment_id provider_response now db).2.success = true) := by
  refine ⟨?_, ?_, ?_⟩
  · intro e he hlt
    simp only [initiate_payment, hv, Option.getD_some, hp, he, if_pos hlt]
  · intro e he hexp hresp
    simp only [initiate_payment, hv, Option.getD_some, hp, he,
      if_neg (not_lt.mpr hexp), initiate_payment_create, hresp]
  · intro hnone hresp
    simp only [initiate_payment, hv, Option.getD_some, hp, hnone,
      initiate_payment_create, hresp]

/-- A single unexpired pending payment for order ordB, for the C5 witness. -/
def c5wPayment : PaymentDoc :=
  { c5Expired with payment_id := "payB", order_id := "ordB", expires_at := 500 }

/-- The database for the C5 witness. -/
def c5wDB : DB :=
  { payments := [c5wPayment], orders := [], refunds := [], products := [] }

/-- Witness for the amended C5: with exactly one pending unexpired payment
stored, a second initiation is rejected with that payment's id. -/
theorem C5_first_pending_guard_witness :
    initiate_payment "ordB" "+2250707123456" "u1" "m1" 1000 "payNew2" c5Response 10 c5wDB
      = (c5wDB, ⟨false, "A pending payment already exists for this order",
                 some "payB", none⟩) := by
  have h := C5_first_pending_guard "ordB" "+2250707123456" "u1" "m1" 1000 "payNew2"
    c5Response 10 c5wDB "+2250707123456" "orange_money" none (by decide) (by decide)
  exact h.1 c5wPayment (by decide) (by decide)

/-! ### Refunds (app/services/payment_service.py,
`PaymentService.refund_payment` and `_call_provider_refund`)

The random tokens (`ref_` refund id, provider token_hex) are the
`new_refund_id` and `ref_token` parameters; `PAYMENT_MODE` is the `mode`
parameter. -/

/-- The dict a provider refund call returns. -/
structure ProviderRefundResponse where
  success : Bool
  provider_refund_id : Option String
  status : Option String
  message : Option String
deriving DecidableEq, Repr

/-- The dict `refund_payment` returns (the keys the claims read). -/
structure RefundResult where
  success : Bool
  message : String
  refund_id : Option String
  payment_id : Option String
  status : Option String
deriving DecidableEq, Repr

/-- Embeds `PaymentService._call_provider_refund`: the real provider refund
APIs are stubbed and auto-succeed for the three known providers. -/
def call_provider_refund (provider ref_token : String) : ProviderRefundResponse :=
  if provider = "orange_money" then
    ⟨true, some ("OM_REF_" ++ ref_token), some "completed",
     some "Orange Money refund completed"⟩
  else if provider = "mtn_money" then
    ⟨true, some ("MTN_REF_" ++ ref_token), some "completed",
     some "MTN Money refund completed"⟩
  else if provider = "moov_money" then
    ⟨true, some ("MOOV_REF_" ++ ref_token), some "completed",
     some "Moov Money refund completed"⟩
  else
    ⟨false, none, none, some ("Unsupported provider for refund: " ++ provider)⟩

/-- The tail of `refund_payment` after the duplicate-refund check: insert
the pending refund, call the provider refund (auto-approved in SIMULATION
mode), and on success mark the refund completed, the payment refunded and
the order cancelled with a status_history entry. -/
def refund_payment_tail (payment : PaymentDoc) (payment_id : String) (amount : ℚ)
    (reason : String) (note : Option String)
    (merchant_id new_refund_id ref_token mode : String)
    (now : Nat) (db : DB) : DB × RefundResult :=
  let refund : RefundDoc :=
    { refund_id := new_refund_id
      payment_id := payment_id
      order_id := payment.order_id
      user_id := payment.user_id
      merchant_id := merchant_id
      initiated_by := merchant_id
      amount := amount
      currency := "XOF"
      reason := reason
      note := note
      status := "pending"
      failure_reason := none
      provider := payment.provider
      provider_refund_id := none
      transaction_id := payment.transaction_id
      completed_at := none
      updated_at := now }
  let db1 := { db with refunds := db.refunds ++ [refund] }
  let provider_response : ProviderRefundResponse :=
    if mode = "SIMULATION" then
      ⟨true, some ("SIM_REF_" ++ ref_token), some "completed",
       some "Refund completed successfully (simulated)"⟩
    else call_provider_refund payment.provider ref_token
  match provider_response.success with
  | false =>
    let markFailed : RefundDoc → RefundDoc := fun r =>
      { r with status := "failed"
               failure_reason := some (provider_response.message.getD "Provider refund failed")
               updated_at := now }
    let newRefunds := updateFirst (fun r => r.refund_id == new_refund_id) markFailed db1.refunds
    let db2 := { db1 with refunds := newRefunds }
    (db2, ⟨false, provider_response.message.getD "Refund failed",
           some new_refund_id, none, none⟩)
  | true =>
    let markCompleted : RefundDoc → RefundDoc := fun r =>
      { r with status := "completed"
               provider_refund_id := provider_response.provider_refund_id
               completed_at := some now
               updated_at := now }
    let newRefunds := updateFirst (fun r => r.refund_id == new_refund_id) markCompleted db1.refunds
    let db2 := { db1 with refunds := newRefunds }
    let markRefunded : PaymentDoc → PaymentDoc := fun pm =>
      { pm with status := "refunded", updated_at := now }
    let newPayments := updateFirst (fun pm => pm.payment_id == payment_id) markRefunded db2.payments
    let db3 := { db2 with payments := newPayments }
    let cancelOrder : OrderDoc → OrderDoc := fun o =>
      { o with status := "cancelled"
               payment_status := some "refunded"
               updated_at := now
               status_history := o.status_history ++
                 [⟨"cancelled", now, merchant_id, some ("Payment refunded: " ++ reason)⟩] }
    let newOrders := updateFirst (fun o => o.id == payment.order_id) cancelOrder db3.orders
    let db4 := { db3 with orders := newOrders }
    (db4, ⟨true, "Refund processed successfully", some new_refund_id,
           some payment_id, some "refunded"⟩)

/-- Embeds `PaymentService.refund_payment(payment_id, amount, reason, note,
merchant_id, db)`: locate the completed payment, check merchant ownership
and amount bounds, reject when a refund with status pending, processing or
completed already exists (referencing its id), then create and settle the
refund. -/
def refund_payment (payment_id : String) (amountReq : Option ℚ) (reason : String)
    (note : Option String) (merchant_id new_refund_id ref_token mode : String)
    (now : Nat) (db : DB) : DB × RefundResult :=
  match db.payments.find? (fun pm => pm.payment_id == payment_id) with
  | none => (db, ⟨false, "Payment not found", none, none, none⟩)
  | some payment =>
    if payment.merchant_id = merchant_id then
      if payment.status = "completed" then
        let amount := amountReq.getD payment.amount
        if payment.amount < amount then
          (db, ⟨false, "Refund amount exceeds payment amount", none, none, none⟩)
        else if amount ≤ 0 then
          (db, ⟨false, "Refund amount must be greater than 0", none, none, none⟩)
        else
          match db.refunds.find? (fun r => r.payment_id == payment_id &&
              (r.status == "pending" || r.status == "processing" ||
               r.status == "completed")) with
          | some existing_refund =>
            (db, ⟨false, "A refund already exists for this payment",
                  some existing_refund.refund_id, none, none⟩)
          | none =>
            refund_payment_tail payment payment_id amount reason note merchant_id
              new_refund_id ref_token mode now db
      else
        (db, ⟨false, "Can only refund completed payments. Current status: "
              ++ payment.status, none, none, none⟩)
    else
      (db, ⟨false, "Only the merchant can refund payments", none, none, none⟩)

/-- A completed payment for order ordC, for the C8 counterexample. -/
def c8Payment : PaymentDoc :=
  { c1Payment with payment_id := "payC", order_id := "ordC", status := "completed" }

/-- An existing refund for payC whose status is cancelled (a non-failed
status). -/
def c8CancelledRefund : RefundDoc :=
  { refund_id := "refC0", payment_id := "payC", order_id := "ordC",
    user_id := "u1", merchant_id := "m1", initiated_by := "m1",
    amount := 46000, currency := "XOF", reason := "first attempt",
    note := none, status := "cancelled", failure_reason := none,
    provider := "orange_money", provider_refund_id := none,
    transaction_id := some "tx1", completed_at := none, updated_at := 0 }

/-- The outcome of requesting a second refund of payC while the cancelled
refund exists. -/
def c8Result : DB × RefundResult :=
  refund_payment "payC" none "changed mind" none "m1" "refC1" "tok" "SIMULATION" 100
    { payments := [c8Payment], orders := [], refunds := [c8CancelledRefund], products := [] }

/-- Counterexample for C8: a refund with the non-failed status cancelled
already exists for payC, yet a new refund request is accepted, because the
duplicate check only looks for pending, processing or completed refunds. -/
theorem C8_cancelled_refund_does_not_block :
    c8CancelledRefund.payment_id = "payC" ∧
    c8CancelledRefund.status = "cancelled" ∧
    c8Result.2.success = true ∧
    c8Result.2.refund_id = some "refC1" := by
  decide

/-- C8 amended: a new refund request for a payment is rejected, with the
existing refund's id, exactly when a refund with status pending, processing
or completed (the first such stored) already exists; a failed or cancelled
refund does not block a new request. -/
theorem C8_duplicate_refund_guard (payment_id : String) (amountReq : Option ℚ)
    (reason : String) (note : Option String)
    (merchant_id new_refund_id ref_token mode : String) (now : Nat)
    (db : DB) (payment : PaymentDoc) (e : RefundDoc)
    (hfind : db.payments.find? (fun pm => pm.payment_id == payment_id) = some payment)
    (hm : payment.merchant_id = merchant_id)
    (hs : payment.status = "completed")
    (ha1 : ¬ payment.amount < amountReq.getD payment.amount)
    (ha2 : ¬ amountReq.getD payment.amount ≤ 0)
    (he : db.refunds.find? (fun r => r.payment_id == payment_id &&
        (r.status == "pending" || r.status == "processing" ||
         r.status == "completed")) = some e) :
    refund_payment payment_id amountReq reason note merchant_id new_refund_id
        ref_token mode now db
      = (db, ⟨false, "A refund already exists for this payment",
              some e.refund_id, none, none⟩) := by
  simp only [refund_payment, hfind, if_pos hm, if_pos hs, if_neg ha1,
    if_neg ha2, he]

/-- A completed payment payD with an existing completed refund, for the C8
witness. -/
def c8wPayment : PaymentDoc :=
  { c1Payment with payment_id := "payD", order_id := "ordD", status := "completed" }

/-- The existing completed refund for payD. -/
def c8wRefund : RefundDoc :=
  { c8CancelledRefund with
      refund_id := "refD0"
      payment_id := "payD"
      order_id := "ordD"
      status := "completed" }

/-- The database for the C8 witness. -/
def c8wDB : DB :=
  { payments := [c8wPayment], orders := [], refunds := [c8wRefund], products := [] }

/-- Witness for the amended C8: a second refund of payD is rejected with
the existing refund id refD0. -/
theorem C8_duplicate_refund_guard_witness :
    refund_payment "payD" none "dup" none "m1" "refD1" "tok" "SIMULATION" 100 c8wDB
      = (c8wDB, ⟨false, "A refund already exists for this payment",
                 some "refD0", none, none⟩) :=
  C8_duplicate_refund_guard "payD" none "dup" none "m1" "refD1" "tok" "SIMULATION"
    100 c8wDB c8wPayment c8wRefund (by decide) (by decide) (by decide)
    (by decide) (by decide) (by decide)

/-- C10: when a full refund of a completed payment succeeds (SIMULATION
mode auto-approves), the refund sets the associated order to cancelled with
payment_status refunded and appends one history entry, whatever the order's
current status (the database carries no constraint on it and
validate_status_transition is never consulted), leaves every product's
stock untouched, and marks the payment refunded. -/
theorem C10_refund_cancels_order (payment_id reason : String) (note : Option String)
    (merchant_id new_refund_id ref_token : String) (now : Nat)
    (db : DB) (payment : PaymentDoc)
    (hfind : db.payments.find? (fun pm => pm.payment_id == payment_id) = some payment)
    (hm : payment.merchant_id = merchant_id)
    (hs : payment.status = "completed")
    (hpos : 0 < payment.amount)
    (hnone : db.refunds.find? (fun r => r.payment_id == payment_id &&
        (r.status == "pending" || r.status == "processing" ||
         r.status == "completed")) = none) :
    ((refund_payment payment_id none reason note merchant_id new_refund_id
        ref_token "SIMULATION" now db).2.success = true) ∧
    ((refund_payment payment_id none reason note merchant_id new_refund_id
        ref_token "SIMULATION" now db).1.products = db.products) ∧
    (∀ o, db.orders.find? (fun x => x.id == payment.order_id) = some o →
      (refund_payment payment_id none reason note merchant_id new_refund_id
          ref_token "SIMULATION" now db).1.orders.find?
          (fun x => x.id == payment.order_id)
        = some { o with
            status := "cancelled"
            payment_status := some "refunded"
            updated_at := now
            status_history := o.status_history ++
              [⟨"cancelled", now, merchant_id,
                some ("Payment refunded: " ++ reason)⟩] }) ∧
    ((refund_payment payment_id none reason note merchant_id new_refund_id
        ref_token "SIMULATION" now db).1.payments.find?
        (fun pm => pm.payment_id == payment_id)
      = (db.payments.find? (fun pm => pm.payment_id == payment_id)).map
          (fun pm => { pm with status := "refunded", updated_at := now })) := by
  have hsim : (("SIMULATION" : String) = "SIMULATION") := rfl
  simp only [refund_payment, hfind, if_pos hm, if_pos hs, Option.getD_none,
    if_neg (lt_irrefl payment.amount), if_neg (not_le.mpr hpos), hnone,
    refund_payment_tail, if_pos hsim, ite_true, ite_false]
  refine ⟨trivial, trivial, ?_, ?_⟩
  · intro o ho
    have key := find?_updateFirst_of_pred
      (fun (x : OrderDoc) => x.id == payment.order_id)
      (fun o => { o with
          status := "cancelled"
          payment_status := some "refunded"
          updated_at := now
          status_history := o.status_history ++
            [⟨"cancelled", now, merchant_id,
              some ("Payment refunded: " ++ reason)⟩] })
      (fun a ha => ha) db.orders
    rw [key, ho]
    rfl
  · have key := find?_updateFirst_of_pred
      (fun (x : PaymentDoc) => x.payment_id == payment_id)
      (fun pm => { pm with status := "refunded", updated_at := now })
      (fun a ha => ha) db.payments
    rw [key, hfind]

/-- A completed payment for the delivered order ordE, for the C10 witness. -/
def c10Payment : PaymentDoc :=
  { c1Payment with payment_id := "payE", order_id := "ordE", status := "completed" }

/-- A delivered order with a line item, for the C10 witness. -/
def c10Order : OrderDoc :=
  { id := "ordE", user_id := "u1", merchant_id := "m1", status := "delivered",
    payment_status := some "completed",
    status_history := [⟨"pending", 0, "system", none⟩],
    products := [⟨"prod1", 2⟩], updated_at := 40 }

/-- The database for the C10 witness, with a product whose stock would be
restored by a cancellation through the order service. -/
def c10DB : DB :=
  { payments := [c10Payment], orders := [c10Order], refunds := [],
    products := [⟨"prod1", 7⟩] }

/-- Witness for C10: refunding payE cancels the delivered order ordE (a
transition validate_status_transition rejects) and leaves the product
stock untouched. -/
theorem C10_refund_cancels_order_witness :
    (validate_status_transition "delivered" "cancelled").1 = false ∧
    (refund_payment "payE" none "defect" none "m1" "refE" "tok" "SIMULATION"
        500 c10DB).2.success = true ∧
    (refund_payment "payE" none "defect" none "m1" "refE" "tok" "SIMULATION"
        500 c10DB).1.products = c10DB.products ∧
    (refund_payment "payE" none "defect" none "m1" "refE" "tok" "SIMULATION"
        500 c10DB).1.orders.find? (fun x => x.id == c10Payment.order_id)
      = some { c10Order with
          status := "cancelled"
          payment_status := some "refunded"
          updated_at := 500
          status_history := c10Order.status_history ++
            [⟨"cancelled", 500, "m1", some ("Payment refunded: " ++ "defect")⟩] } := by
  have h := C10_refund_cancels_order "payE" "defect" none "m1" "refE" "tok" 500
    c10DB c10Payment (by decide) (by decide) (by decide) (by decide) (by decide)
  exact ⟨by decide, h.1, h.2.1, h.2.2.1 c10Order (by decide)⟩

/-! ### Orange Money gateway (app/services/payment_providers/
orange_money_service.py)

The two HTTP calls (`requests.post` for the OAuth token and for the payment
request) are I/O; each outcome is a parameter: either the parsed 2xx JSON
body, or a `requests.exceptions.RequestException` (which covers timeouts,
connection errors and the non-2xx outcomes surfaced by
`raise_for_status`). -/

/-- A Python exception escaping or caught inside the service: either a
`requests.exceptions.RequestException`, or a plain `Exception` such as the
one `_get_access_token` raises on authentication failure. -/
inductive PyExc where
  | requestException (msg : String)
  | genericException (msg : String)
deriving DecidableEq, Repr

/-- Outcome of one `requests.post` call: the parsed JSON of a 2xx response,
or a `RequestException`. -/
inductive HttpOutcome (α : Type) where
  | ok (body : α)
  | requestError (msg : String)
deriving DecidableEq, Repr

/-- The JSON body of a successful OAuth token response. -/
structure TokenResponse where
  access_token : String
  expires_in : Nat
deriving DecidableEq, Repr

/-- The JSON body of a successful Orange Money payment creation. -/
structure OrangePaymentResponse where
  payment_token : Option String
  payment_url : Option String
  pay_token : Option String
deriving DecidableEq, Repr

/-- The dict `OrangeMoneyService.initiate_payment` returns when it returns
(the keys the claim reads). -/
structure OrangeInitResult where
  success : Bool
  transaction_id : Option String
  status : Option String
  message : String
deriving DecidableEq, Repr

/-- Embeds `OrangeMoneyService._get_access_token`: return the cached token
while it is truthy and unexpired; otherwise fetch a new one, and on any
transport failure raise a plain `Exception` (not a `RequestException`) with
the authentication-failed message.  The cache write on success only affects
later calls and is not modelled for this single-call embedding. -/
def get_access_token (cachedTok : Option String) (cachedExpiresAt : Option Nat)
    (now : Nat) (tokenCall : HttpOutcome TokenResponse) : Except PyExc String :=
  let fetch : Except PyExc String :=
    match tokenCall with
    | .ok data => .ok data.access_token
    | .requestError msg =>
      .error (.genericException ("Orange Money authentication failed: " ++ msg))
  match truthyStr cachedTok && cachedExpiresAt.isSome with
  | true =>
    if now < cachedExpiresAt.getD 0 then .ok (cachedTok.getD "") else fetch
  | false => fetch

/-- Embeds `OrangeMoneyService.initiate_payment(amount, phone_number,
order_id, payment_id)`.  The try block spans the token fetch and the
payment request, but its except clause catches only
`requests.exceptions.RequestException`; the plain `Exception` raised by
`_get_access_token` therefore propagates to the caller, which the
`Except.error` branch records.  The French USSD prompt's interpolated
amount is abstracted away. -/
def orange_initiate_payment (mode : String) (_amount : ℚ)
    (cachedTok : Option String) (cachedExpiresAt : Option Nat) (now : Nat)
    (tokenCall : HttpOutcome TokenResponse)
    (paymentCall : HttpOutcome OrangePaymentResponse) :
    Except PyExc OrangeInitResult :=
  if mode = "SIMULATION" then
    .ok ⟨false, none, none, "Use simulation service in SIMULATION mode"⟩
  else
    match get_access_token cachedTok cachedExpiresAt now tokenCall with
    | .error (.requestException m) =>
      .ok ⟨false, none, some "failed",
           "Failed to initiate Orange Money payment: " ++ m⟩
    | .error (.genericException m) => .error (.genericException m)
    | .ok _token =>
      match paymentCall with
      | .requestError m =>
        .ok ⟨false, none, some "failed",
             "Failed to initiate Orange Money payment: " ++ m⟩
      | .ok data =>
        .ok ⟨true, data.payment_token, some "pending",
             "Veuillez composer *144# pour confirmer le paiement"⟩

/-- Counterexample for C6: in SANDBOX mode with no cached token, a
transport failure of the OAuth token request makes `initiate_payment`
raise the generic authentication exception to its caller instead of
returning a success=false result. -/
theorem C6_auth_failure_raises :
    orange_initiate_payment "SANDBOX" 46000 none none 0
        (.requestError "timed out") (.ok ⟨some "tok", none, none⟩)
      = .error (.genericException
          "Orange Money authentication failed: timed out") := by
  rfl

/-- C6 amended: whenever the OAuth token is obtained (cached or fetched),
`initiate_payment` in a non-simulation mode returns a result rather than
raising, and any transport or provider failure of the payment request
itself yields success=false with a nonempty message; but a failure
obtaining the token raises a generic exception that the handler (which
catches only RequestException) lets escape to the caller. -/
theorem C6_initiate_total_after_token (mode : String) (amount : ℚ)
    (cachedTok : Option String) (cachedExpiresAt : Option Nat) (now : Nat)
    (tokenCall : HttpOutcome TokenResponse)
    (paymentCall : HttpOutcome OrangePaymentResponse) (t : String)
    (hmode : ¬ mode = "SIMULATION")
    (htok : get_access_token cachedTok cachedExpiresAt now tokenCall = .ok t) :
    (∃ r, orange_initiate_payment mode amount cachedTok cachedExpiresAt now
        tokenCall paymentCall = .ok r) ∧
    (∀ m, paymentCall = .requestError m →
      orange_initiate_payment mode amount cachedTok cachedExpiresAt now
          tokenCall paymentCall
        = .ok ⟨false, none, some "failed",
               "Failed to initiate Orange Money payment: " ++ m⟩) ∧
    (∀ e, orange_initiate_payment mode amount cachedTok cachedExpiresAt now
        tokenCall paymentCall ≠ .error e) := by
  refine ⟨?_, ?_, ?_⟩
  · simp only [orange_initiate_payment, if_neg hmode, htok]
    match paymentCall with
    | .requestError m => exact ⟨_, rfl⟩
    | .ok data => exact ⟨_, rfl⟩
  · intro m hm
    simp only [orange_initiate_payment, if_neg hmode, htok, hm]
  · intro e
    simp only [orange_initiate_payment, if_neg hmode, htok]
    match paymentCall with
    | .requestError m => simp
    | .ok data => simp

/-- Witness for the amended C6: with a valid cached token, a transport
failure of the payment request returns success=false instead of raising. -/
theorem C6_initiate_total_after_token_witness :
    orange_initiate_payment "SANDBOX" 1000 (some "cached") (some 100) 0
        (.requestError "ignored") (.requestError "connection reset")
      = .ok ⟨false, none, some "failed",
             "Failed to initiate Orange Money payment: " ++ "connection reset"⟩ :=
  (C6_initiate_total_after_token "SANDBOX" 1000 (some "cached") (some 100) 0
    (.requestError "ignored") (.requestError "connection reset") "cached"
    (by decide) (by rfl)).2.1 "connection reset" rfl

/-- Witness for C2: the theorem applied to the terminal pair (delivered,
pending), discharging the terminal-state hypothesis. -/
theorem C2_validate_status_transition_witness :
    (validate_status_transition "delivered" "pending").1 = false ∧
    (validate_status_transition "delivered" "pending").2 =
      some (.finalState "delivered") :=
  (C2_validate_status_transition .delivered .pending).2 (Or.inl rfl)
